import Mathlib

/-!
# Verification of the nai-llm model packaging and serving scripts

This file gives a shallow embedding, in Lean 4, of the core logic of the
`nai-llm` repository (the `llm/` python scripts) together with proofs of the
behavioural properties claimed by its specification.

Embedded components:
* `get_mar_name` (`llm/utils/marsgen.py`) — archive naming policy;
* `model_archiver_command_builder` and the argument assembly performed by
  `generate_mars` (`llm/utils/marsgen.py`);
* `compare_lists` and `filter_files_by_extension` (`llm/download.py`);
* `set_model_params` (`llm/utils/tsutils.py`) — generation-parameter
  environment hygiene;
* `run_health_check` (`llm/utils/tsutils.py`) — worker readiness check;
* `read_config_for_download`, `create_mar`, `run_script` (`llm/generate.py`),
  over an explicit file-system state;
* `torchserve_run` / `cleanup` (`llm/torchserve_run.py`), over an explicit
  action trace with Python `try/finally` semantics.

Python's `sys.exit(1)` is modelled by an explicit error / exit-code value;
`os.environ` by an association list; the store directory and the temporary
staging directory by explicit lists of file names.
-/

/-! ## Archive naming (`llm/utils/marsgen.py`) -/

/-- Constant `MAR_NAME_LEN`: number of characters to include from `repo_version`
in the MAR name (`llm/utils/marsgen.py`). -/
def MAR_NAME_LEN : Nat := 7

/-- Embedding of `get_mar_name(model_name, repo_version, is_custom_model)`
(`llm/utils/marsgen.py`): custom models use the bare model name, catalog
models append `_` and the first `MAR_NAME_LEN` characters of the revision
(Python `repo_version[0:MAR_NAME_LEN]` is `String.take`). -/
def get_mar_name (model_name repo_version : String) (is_custom_model : Bool) : String :=
  if is_custom_model then model_name
  else model_name ++ "_" ++ repo_version.take MAR_NAME_LEN

/-! ## File-set comparison and extension filtering (`llm/download.py`) -/

/-- Embedding of `compare_lists(list1, list2)` (`llm/download.py`), which is
`Counter(list1) == Counter(list2)`.  Two `collections.Counter`s built from
lists are equal exactly when every element occurring in either list has the
same multiplicity in both (a `Counter` built from a list stores no zero
counts), so the check is rendered executably by comparing counts at every
element of both lists. -/
def compare_lists (list1 list2 : List String) : Bool :=
  (list1 ++ list2).all fun s => list1.count s == list2.count s

/-- Plain character-wise suffix test: `filename` ends with the literal
characters of `suffix`.  Building block for the regex denotation below. -/
def str_ends_with (suffix filename : String) : Bool :=
  suffix.data.isSuffixOf filename.data

/-- Denotation of `re.search(pattern, filename)` for the pattern built by
`filter_files_by_extension` (`llm/download.py`), namely
`"|".join([re.escape(suffix) + "$" for suffix in extensions_to_remove])`.
Each alternative `re.escape(suffix) + "$"` matches the escaped (hence
literal) suffix anchored at `$`; without `re.MULTILINE`, Python's `$`
matches at the very end of the string *or just before a newline at the end
of the string*, so one alternative matches `filename` exactly when
`filename` ends with `suffix`, or with `suffix` followed by a single
trailing `'\n'`.  For the empty list the joined pattern is the empty
string, and in Python `re.search("", s)` matches every string `s`. -/
def search_ignore_pattern (extensions_to_remove : List String) (filename : String) : Bool :=
  match extensions_to_remove with
  | [] => true
  | _ => extensions_to_remove.any fun suffix =>
      str_ends_with suffix filename || str_ends_with (suffix ++ "\n") filename

/-- Embedding of `filter_files_by_extension(filenames, extensions_to_remove)`
(`llm/download.py`): keep the filenames on which `re.search` of the joined
pattern finds no match. -/
def filter_files_by_extension (filenames extensions_to_remove : List String) : List String :=
  filenames.filter fun filename => ! search_ignore_pattern extensions_to_remove filename

/-! ## Worker health check (`llm/utils/tsutils.py`) -/

/-- One worker entry of the `GET /models/{name}` response body. -/
structure Worker where
  status : String
deriving Repr, DecidableEq

/-- Embedding of the body of `run_health_check` (`llm/utils/tsutils.py`)
applied to the worker list of the single `requests.get` response: return
`False` as soon as some worker's status differs from `"READY"`, else
`True`. -/
def run_health_check (workers : List Worker) : Bool :=
  workers.all fun worker => worker.status == "READY"

/-- Wrapper recording that `run_health_check` issues exactly one `requests.get` to the readiness
endpoint, at call time.  Viewing the endpoint as a time-indexed trace of
worker lists, the function's verdict depends only on the response at
instant `0`; there is no retry loop in the source. -/
def run_health_check_trace (trace : Nat → List Worker) : Bool :=
  run_health_check (trace 0)

/-- Modelled from the spec (for comparison with the code, which has no such
loop): `health_check(model_name, timeout)` "polls a readiness endpoint at
fixed intervals until all reported workers are ready or the timeout
elapses".  Succeeds iff some poll instant `i * interval ≤ timeout` sees all
workers ready. -/
def health_check_polling_spec (trace : Nat → List Worker) (timeout interval : Nat) : Bool :=
  (List.range (timeout / interval + 1)).any fun i => run_health_check (trace (i * interval))

/-! ## Archiver command assembly (`llm/utils/marsgen.py`) -/

/-- The `model_archiver_args` dictionary built by `generate_mars`
(`llm/utils/marsgen.py`). -/
structure ModelArchiverArgs where
  model_name : String
  version : String
  handler : String
  extra_files : String
  export_path : String
deriving Repr, DecidableEq

/-- Embedding of `model_archiver_command_builder(model_archiver_args)`
(`llm/utils/marsgen.py`).  Each flag is appended only when its value is
truthy (for strings: non-empty); `--force` is always appended. -/
def model_archiver_command_builder (a : ModelArchiverArgs) : String :=
  let cmd := "torch-model-archiver"
  let cmd := if a.model_name ≠ "" then cmd ++ " --model-name " ++ a.model_name else cmd
  let cmd := if a.version ≠ "" then cmd ++ " --version " ++ a.version else cmd
  let cmd := if a.handler ≠ "" then cmd ++ " --handler " ++ a.handler else cmd
  let cmd := if a.extra_files ≠ "" then cmd ++ " --extra-files \"" ++ a.extra_files ++ "\"" else cmd
  let cmd := if a.export_path ≠ "" then cmd ++ " --export-path " ++ a.export_path else cmd
  cmd ++ " --force"

/-- The fields of the `GenerateDataModel` that `generate_mars` reads when it
assembles `model_archiver_args`. -/
structure GenModelInfo where
  model_name : String
  repo_version : String
  handler_path : String
deriving Repr, DecidableEq

/-- The argument dictionary assembled by `generate_mars`
(`llm/utils/marsgen.py`, the `model_archiver_args = {...}` literal):
`model_name` is the logical `gen_model.model_name`, `version` is
`gen_model.repo_info.repo_version`, `handler` the handler path,
`extra_files` the comma-joined file manifest, `export_path` the staging
directory passed as `model_store_dir`. -/
def generate_mars_args (gen_model : GenModelInfo) (extra_files export_path : String) :
    ModelArchiverArgs :=
  { model_name := gen_model.model_name
    version := gen_model.repo_version
    handler := gen_model.handler_path
    extra_files := extra_files
    export_path := export_path }

/-! ## Process environment and generation parameters (`llm/utils/tsutils.py`) -/

/-- Model of `os.environ`, restricted to what the scripts touch: an association list
from variable names to values (at most one entry per name is ever
consulted, `envGet` reads the first). -/
abbrev Env := List (String × String)

/-- Reading `os.environ[key]` (`None`-safe lookup). -/
def envGet (env : Env) (key : String) : Option String :=
  (env.find? fun kv => kv.1 == key).map (·.2)

/-- Membership test `key in os.environ`. -/
def envMem (env : Env) (key : String) : Bool :=
  (envGet env key).isSome

/-- Assignment `os.environ[key] = val`. -/
def envSet (env : Env) (key val : String) : Env :=
  (key, val) :: env.filter fun kv => kv.1 != key

/-- Deletion `del os.environ[key]`. -/
def envDel (env : Env) (key : String) : Env :=
  env.filter fun kv => kv.1 != key

/-- The per-model generation parameters as they appear under the
`"model_params"` key of an entry of `model_config.json`; a `none` field
means the parameter is not declared there.  Values are kept as the strings
`str(param_value)` produces. -/
structure ModelParams where
  temperature : Option String
  repetition_penalty : Option String
  top_p : Option String
  max_new_tokens : Option String
deriving Repr, DecidableEq

/-- One entry of `model_config.json` (the keys the embedded functions
read); a `none` field means the corresponding JSON key is absent. -/
structure CatalogEntry where
  repo_id : Option String
  repo_version : Option String
  handler : Option String
  model_params : Option ModelParams
deriving Repr, DecidableEq

/-- The parsed `model_config.json`: logical model name → entry. -/
abbrev Catalog := List (String × CatalogEntry)

/-- Lookup `model_config[model_name]` (also the `model_name in model_config` test). -/
def configLookup (catalog : Catalog) (model_name : String) : Option CatalogEntry :=
  (catalog.find? fun kv => kv.1 == model_name).map (·.2)

/-- The `generation_params` dict of `set_model_params`
(`llm/utils/tsutils.py`), in its (insertion-ordered) iteration order:
environment variable name paired with the projection reading that
parameter out of `model_params`. -/
def generation_params : List (String × (ModelParams → Option String)) :=
  [("NAI_TEMPERATURE", ModelParams.temperature),
   ("NAI_REP_PENALTY", ModelParams.repetition_penalty),
   ("NAI_TOP_P", ModelParams.top_p),
   ("NAI_MAX_TOKENS", ModelParams.max_new_tokens)]

/-- Guarded deletion: `del os.environ[key]` protected by `key in os.environ` (the
`elif param_name in os.environ: del os.environ[param_name]` pattern of
`set_model_params`). -/
def delIfPresent (env : Env) (key : String) : Env :=
  if envMem env key then envDel env key else env

/-- One iteration of the `for param_name, param_value in generation_params.items()`
loop of `set_model_params` when `model_params` is present: if the parameter
is declared in `param_config`, set the environment variable to its
(stringified) value, else delete the variable if present. -/
def setOrDel (param_config : ModelParams) (env : Env)
    (kv : String × (ModelParams → Option String)) : Env :=
  match kv.2 param_config with
  | some v => envSet env kv.1 v
  | none => delIfPresent env kv.1

/-- Embedding of `set_model_params(model_name)` (`llm/utils/tsutils.py`) as
a transformer of the process environment.  If the model is in
`model_config` and has `model_params`, every generation parameter declared
there is written to its environment variable and every undeclared one is
deleted if present; if the model is in `model_config` without
`model_params`, all four variables are deleted if present; if the model is
not in `model_config` at all, the function falls through and the
environment is left untouched. -/
def set_model_params (catalog : Catalog) (model_name : String) (env : Env) : Env :=
  match configLookup catalog model_name with
  | none => env
  | some entry =>
    match entry.model_params with
    | some param_config =>
      generation_params.foldl (setOrDel param_config) env
    | none =>
      generation_params.foldl (fun e kv => delIfPresent e kv.1) env

/-! ## Download configuration resolution (`llm/generate.py`) -/

/-- The inputs `read_config_for_download` consumes: the command-line fields
of the `GenerateDataModel` (argparse defaults are falsy, so `""` stands for
an unsupplied string and `none` for an unsupplied token) plus the outcomes
of the two effectful probes the function performs: whether
`check_if_folder_empty(model_path)` holds, and the result of the hub
validation (`validate_commit_info`, `some latest` on success carrying the
latest commit id, `none` when the hub rejects repo/revision/token). -/
structure GenInputs where
  model_name : String
  skip_download : Bool
  repo_id : String
  repo_version : String
  handler_path : String
  hf_token : Option String
  folder_empty : Bool
  hub_commit : Option String
deriving Repr, DecidableEq

/-- The fields of the `GenerateDataModel` that `read_config_for_download`
resolves. -/
structure ResolvedModel where
  is_custom_model : Bool
  repo_id : String
  repo_version : String
  handler_path : String
  mar_name : String
deriving Repr, DecidableEq

/-- Embedding of `GenerateDataModel.validate_hf_token`
(`llm/utils/generate_data_model.py`): fails (exit 1) iff the repository id
is in the gated `meta-llama` namespace and no token is available. -/
def validate_hf_token (repo_id : String) (hf_token : Option String) : Bool :=
  !("meta-llama".data.isPrefixOf repo_id.data && hf_token.isNone)

/-- Embedding of `read_config_for_download(gen_model)` (`llm/generate.py`).
`Except.error 1` renders `sys.exit(1)`.
* Catalog branch: `repo_id`, default `repo_version` and default handler come
  from the entry (a missing key raises `KeyError`, caught into `sys.exit(1)`),
  then token and hub validation run; `validate_commit_info` replaces an
  unset revision by the latest commit id.
* Custom branch with `skip_download`: requires a non-empty model directory,
  and defaults an unset revision to `"1.0"`.
* Custom branch with download: requires an explicit `repo_id`, then the same
  token and hub validation.
Finally the MAR name is computed with `get_mar_name`. -/
def read_config_for_download (catalog : Catalog) (g : GenInputs) :
    Except Nat ResolvedModel :=
  match configLookup catalog g.model_name with
  | some entry =>
    match entry.repo_id with
    | none => .error 1
    | some rid =>
      match (if g.repo_version = "" then entry.repo_version else some g.repo_version) with
      | none => .error 1
      | some rv0 =>
        match (if g.handler_path = "" then entry.handler else some g.handler_path) with
        | none => .error 1
        | some hp =>
          if !validate_hf_token rid g.hf_token then .error 1
          else
            match g.hub_commit with
            | none => .error 1
            | some latest =>
              let rv := if rv0 = "" then latest else rv0
              .ok { is_custom_model := false, repo_id := rid, repo_version := rv,
                    handler_path := hp,
                    mar_name := get_mar_name g.model_name rv false }
  | none =>
    let resolved : Except Nat (String × String) :=
      if g.skip_download then
        if g.folder_empty then .error 1
        else .ok (g.repo_id, if g.repo_version = "" then "1.0" else g.repo_version)
      else
        if g.repo_id = "" then .error 1
        else if !validate_hf_token g.repo_id g.hf_token then .error 1
        else
          match g.hub_commit with
          | none => .error 1
          | some latest =>
            .ok (g.repo_id, if g.repo_version = "" then latest else g.repo_version)
    match resolved with
    | .error c => .error c
    | .ok (rid, rv) =>
      let hp := if g.handler_path = "" then "handler.py" else g.handler_path
      .ok { is_custom_model := true, repo_id := rid, repo_version := rv,
            handler_path := hp,
            mar_name := get_mar_name g.model_name rv true }

/-! ## Staging pipeline over an explicit file-system state (`llm/generate.py`,
`llm/utils/marsgen.py`) -/

/-- The slice of the file system the staging pipeline touches: the files of
the `mar_output` store directory, and the temporary staging directory
(`tmp_<mar_name>_<uuid>`) with its files. -/
structure FS where
  outputFiles : List String
  tmpExists : Bool
  tmpFiles : List String
deriving Repr, DecidableEq

/-- Outcome of one pipeline run: `exit = some c` when the run terminated
through `sys.exit(c)`, the resulting file-system slice, and whether the
download and the external archiver were actually invoked. -/
structure PipeResult where
  exit : Option Nat
  fs : FS
  downloaded : Bool
  archiverInvoked : Bool
deriving Repr, DecidableEq

/-- Embedding of the archiver invocation inside `generate_mars`
(`llm/utils/marsgen.py`): `subprocess.check_call` of the built command.  On
exit code 0 the archiver has produced `{model_name}.mar` inside the export
(staging) directory; on non-zero exit the `CalledProcessError` branch
prints and calls `sys.exit(1)` — without touching the staging directory.
Returns (exit status, file system, archiver-invoked flag). -/
def generate_mars_fs (model_name : String) (archiver_ok : Bool) (fs : FS) :
    Option Nat × FS × Bool :=
  if archiver_ok then
    (none, { fs with tmpFiles := (model_name ++ ".mar") :: fs.tmpFiles }, true)
  else
    (some 1, fs, true)

/-- Embedding of `move_mar(gen_model, tmp_dir)` (`llm/generate.py`):
`check_if_path_exists` on `{model_name}.mar` in the staging directory
(exit 1 when missing), then `mv` it to `{mar_name}.mar` in `mar_output`. -/
def move_mar (model_name mar_name : String) (fs : FS) : Option Nat × FS :=
  if (model_name ++ ".mar") ∈ fs.tmpFiles then
    (none, { fs with tmpFiles := fs.tmpFiles.erase (model_name ++ ".mar"),
                     outputFiles := (mar_name ++ ".mar") :: fs.outputFiles })
  else
    (some 1, fs)

/-- Embedding of `create_mar(gen_model)` (`llm/generate.py`):
fail when the model directory is empty; create the temporary staging
directory (`create_tmp_model_store`); run the archiver (`generate_mars`);
on success move the MAR into the store (`move_mar`) and delete the staging
directory (`rm_dir(tmp_dir)`).  `model_path_empty` is the outcome of
`check_if_folder_empty(model_path)` at this point. -/
def create_mar (model_name mar_name : String) (model_path_empty archiver_ok : Bool)
    (fs : FS) : Option Nat × FS × Bool :=
  if model_path_empty then
    (some 1, fs, false)
  else
    let fs1 : FS := { fs with tmpExists := true, tmpFiles := [] }
    match generate_mars_fs model_name archiver_ok fs1 with
    | (some c, fs2, invoked) => (some c, fs2, invoked)
    | (none, fs2, invoked) =>
      match move_mar model_name mar_name fs2 with
      | (some c, fs3) => (some c, fs3, invoked)
      | (none, fs3) =>
        (none, { fs3 with tmpExists := false, tmpFiles := [] }, invoked)

/-- Embedding of `run_script(params)` (`llm/generate.py`) after
`read_config_for_download` has resolved `mar_name`:
check `model_path` and `mar_output` exist (`paths_ok`), then
`check_if_mar_exists` (exit 1 when `{mar_name}.mar` is already in the
store), then `run_download` unless skipped (which itself requires an empty
model directory and fills it), then `create_mar`.
`model_path_empty` is whether the model directory is empty when the
pipeline reaches the download step. -/
def run_script (model_name mar_name : String)
    (paths_ok skip_download model_path_empty archiver_ok : Bool) (fs : FS) : PipeResult :=
  if !paths_ok then
    { exit := some 1, fs := fs, downloaded := false, archiverInvoked := false }
  else if (mar_name ++ ".mar") ∈ fs.outputFiles then
    { exit := some 1, fs := fs, downloaded := false, archiverInvoked := false }
  else if skip_download then
    let (e, fs', invoked) := create_mar model_name mar_name model_path_empty archiver_ok fs
    { exit := e, fs := fs', downloaded := false, archiverInvoked := invoked }
  else if !model_path_empty then
    -- `run_download` refuses a non-empty model directory
    { exit := some 1, fs := fs, downloaded := false, archiverInvoked := false }
  else
    -- `snapshot_download` fills the model directory, so it is non-empty
    -- when `create_mar` re-checks it
    let (e, fs', invoked) := create_mar model_name mar_name false archiver_ok fs
    { exit := e, fs := fs', downloaded := true, archiverInvoked := invoked }

/-! ## Inference-run orchestration (`llm/torchserve_run.py`) -/

/-- Observable side effects of `torchserve_run` and `cleanup`. -/
inductive TSAction where
  | stopTorchserve
  | rmLogsFolder
  | rmGenFolder
  | bodyStep (tag : String)
deriving Repr, DecidableEq

/-- How the Python body of the `try` block finished: fell off the end,
raised an exception, or called `sys.exit(code)` (which raises
`SystemExit(code)`). -/
inductive PyOutcome where
  | normal
  | exn
  | sysExit (code : Nat)
deriving Repr, DecidableEq

/-- Embedding of `cleanup(gen_folder, ts_stop, ts_cleanup)`
(`llm/torchserve_run.py`): when `ts_stop` is set, stop Torchserve and
remove the run's `logs` folder, and additionally remove the whole gen
folder when `ts_cleanup` is also set; otherwise do nothing. -/
def cleanup (ts_stop ts_cleanup : Bool) : List TSAction :=
  if ts_stop then
    [TSAction.stopTorchserve, TSAction.rmLogsFolder]
      ++ (if ts_cleanup then [TSAction.rmGenFolder] else [])
  else []

/-- Python `try/finally` semantics: the `finally` suite runs after the
`try` suite on every exit path — normal completion, an exception
propagating, or `SystemExit` raised by `sys.exit` — and then the `try`
suite's outcome propagates unchanged. -/
def pyTryFinally (body : List TSAction × PyOutcome) (final : List TSAction) :
    List TSAction × PyOutcome :=
  (body.1 ++ final, body.2)

/-- Embedding of `torchserve_run(params)` (`llm/torchserve_run.py`): inside
`try`, first the unconditional initial `cleanup(gen_folder, True, False)`,
then the config check / `read_config_for_inference` / `run_inference` body
(abstracted as the trace and outcome it produced); the `finally` suite is
`cleanup(gen_folder, params.stop_server, params.ts_cleanup)`. -/
def torchserve_run (body : List TSAction × PyOutcome) (stop_server ts_cleanup : Bool) :
    List TSAction × PyOutcome :=
  pyTryFinally (cleanup true false ++ body.1, body.2) (cleanup stop_server ts_cleanup)

/-! ## Helper lemmas: environment lookups -/

theorem envGet_cons (kv : String × String) (env : Env) (k : String) :
    envGet (kv :: env) k = if kv.1 == k then some kv.2 else envGet env k := by
  unfold envGet
  rw [List.find?_cons]
  cases h : (kv.1 == k) <;> simp [h]

theorem envGet_del_self (env : Env) (k : String) : envGet (envDel env k) k = none := by
  unfold envDel
  induction env with
  | nil => rfl
  | cons kv rest ih =>
    rw [List.filter_cons]
    by_cases hk : kv.1 = k
    · simp only [hk, bne_self_eq_false, if_neg Bool.false_ne_true]
      exact ih
    · have hb : (kv.1 != k) = true := by simpa [bne_iff_ne] using hk
      rw [if_pos hb, envGet_cons]
      have hq : (kv.1 == k) = false := by simpa [beq_iff_eq] using hk
      rw [hq, if_neg Bool.false_ne_true]
      exact ih

theorem envGet_del_ne (env : Env) (k k' : String) (h : k' ≠ k) :
    envGet (envDel env k) k' = envGet env k' := by
  unfold envDel
  induction env with
  | nil => rfl
  | cons kv rest ih =>
    rw [List.filter_cons]
    by_cases hk : kv.1 = k
    · simp only [hk, bne_self_eq_false, if_neg Bool.false_ne_true]
      rw [ih, envGet_cons]
      have hq : (kv.1 == k') = false := by
        subst hk
        simpa [beq_iff_eq] using fun e => h e.symm
      rw [hq, if_neg Bool.false_ne_true]
    · have hb : (kv.1 != k) = true := by simpa [bne_iff_ne] using hk
      rw [if_pos hb, envGet_cons, envGet_cons]
      cases hq : (kv.1 == k') <;> simp [hq, ih]

theorem envGet_set_self (env : Env) (k v : String) :
    envGet (envSet env k v) k = some v := by
  rw [envSet, envGet_cons]
  simp

theorem envGet_set_ne (env : Env) (k v k' : String) (h : k' ≠ k) :
    envGet (envSet env k v) k' = envGet env k' := by
  rw [envSet, envGet_cons]
  have hq : (k == k') = false := by simpa [beq_iff_eq] using fun e => h e.symm
  rw [hq, if_neg Bool.false_ne_true]
  exact envGet_del_ne env k k' h

theorem envGet_delIfPresent_self (env : Env) (k : String) :
    envGet (delIfPresent env k) k = none := by
  unfold delIfPresent
  split
  · exact envGet_del_self env k
  · next hmem =>
    simpa [envMem, Option.isSome_iff_ne_none] using hmem

theorem envGet_delIfPresent_ne (env : Env) (k k' : String) (h : k' ≠ k) :
    envGet (delIfPresent env k) k' = envGet env k' := by
  unfold delIfPresent
  split
  · exact envGet_del_ne env k k' h
  · rfl

theorem envMem_setOrDel_self (p : ModelParams) (env : Env)
    (kv : String × (ModelParams → Option String)) :
    envMem (setOrDel p env kv) kv.1 = (kv.2 p).isSome := by
  unfold setOrDel
  cases hg : kv.2 p with
  | some v => simp [envMem, envGet_set_self]
  | none => simp [envMem, envGet_delIfPresent_self]

theorem envGet_setOrDel_ne (p : ModelParams) (env : Env)
    (kv : String × (ModelParams → Option String)) (k' : String) (h : k' ≠ kv.1) :
    envGet (setOrDel p env kv) k' = envGet env k' := by
  unfold setOrDel
  cases hg : kv.2 p with
  | some v => exact envGet_set_ne env kv.1 v k' h
  | none => exact envGet_delIfPresent_ne env kv.1 k' h

/-! ## C1: generation-parameter environment hygiene -/

/-- C1 (amended): for every model name *present in the catalog config*,
after `set_model_params(model_name)` the set of generation-parameter
environment variables present (`NAI_TEMPERATURE`, `NAI_REP_PENALTY`,
`NAI_TOP_P`, `NAI_MAX_TOKENS`) exactly equals the set of parameters
(`temperature`, `repetition_penalty`, `top_p`, `max_new_tokens`) declared
for that model under `model_params` (none when `model_params` is absent);
stale entries from a previous call are deleted.  For a model name *not*
present in the catalog, however, `set_model_params` leaves the environment
entirely unchanged, so stale entries survive. -/
theorem set_model_params_hygiene_of_catalog_model
    (catalog : Catalog) (model_name : String) (env : Env) :
    (∀ entry : CatalogEntry, configLookup catalog model_name = some entry →
      envMem (set_model_params catalog model_name env) "NAI_TEMPERATURE"
          = (entry.model_params.bind ModelParams.temperature).isSome ∧
      envMem (set_model_params catalog model_name env) "NAI_REP_PENALTY"
          = (entry.model_params.bind ModelParams.repetition_penalty).isSome ∧
      envMem (set_model_params catalog model_name env) "NAI_TOP_P"
          = (entry.model_params.bind ModelParams.top_p).isSome ∧
      envMem (set_model_params catalog model_name env) "NAI_MAX_TOKENS"
          = (entry.model_params.bind ModelParams.max_new_tokens).isSome) ∧
    (configLookup catalog model_name = none →
      set_model_params catalog model_name env = env) := by
  have hTR : ("NAI_TEMPERATURE" : String) ≠ "NAI_REP_PENALTY" := by decide
  have hTP : ("NAI_TEMPERATURE" : String) ≠ "NAI_TOP_P" := by decide
  have hTM : ("NAI_TEMPERATURE" : String) ≠ "NAI_MAX_TOKENS" := by decide
  have hRP : ("NAI_REP_PENALTY" : String) ≠ "NAI_TOP_P" := by decide
  have hRM : ("NAI_REP_PENALTY" : String) ≠ "NAI_MAX_TOKENS" := by decide
  have hPM : ("NAI_TOP_P" : String) ≠ "NAI_MAX_TOKENS" := by decide
  constructor
  · intro entry h
    unfold set_model_params
    rw [h]
    cases hmp : entry.model_params with
    | none =>
      simp only [hmp, generation_params, List.foldl_cons, List.foldl_nil, Option.none_bind,
        Option.isSome_none]
      refine ⟨?_, ?_, ?_, ?_⟩ <;> simp only [envMem]
      · rw [envGet_delIfPresent_ne _ _ _ hTM, envGet_delIfPresent_ne _ _ _ hTP,
          envGet_delIfPresent_ne _ _ _ hTR, envGet_delIfPresent_self]
        rfl
      · rw [envGet_delIfPresent_ne _ _ _ hRM, envGet_delIfPresent_ne _ _ _ hRP,
          envGet_delIfPresent_self]
        rfl
      · rw [envGet_delIfPresent_ne _ _ _ hPM, envGet_delIfPresent_self]
        rfl
      · rw [envGet_delIfPresent_self]
        rfl
    | some p =>
      simp only [hmp, generation_params, List.foldl_cons, List.foldl_nil, Option.some_bind]
      refine ⟨?_, ?_, ?_, ?_⟩
      · simp only [envMem]
        rw [envGet_setOrDel_ne p _ ("NAI_MAX_TOKENS", ModelParams.max_new_tokens) _ hTM,
          envGet_setOrDel_ne p _ ("NAI_TOP_P", ModelParams.top_p) _ hTP,
          envGet_setOrDel_ne p _ ("NAI_REP_PENALTY", ModelParams.repetition_penalty) _ hTR]
        exact envMem_setOrDel_self p env ("NAI_TEMPERATURE", ModelParams.temperature)
      · simp only [envMem]
        rw [envGet_setOrDel_ne p _ ("NAI_MAX_TOKENS", ModelParams.max_new_tokens) _ hRM,
          envGet_setOrDel_ne p _ ("NAI_TOP_P", ModelParams.top_p) _ hRP]
        exact envMem_setOrDel_self p _ ("NAI_REP_PENALTY", ModelParams.repetition_penalty)
      · simp only [envMem]
        rw [envGet_setOrDel_ne p _ ("NAI_MAX_TOKENS", ModelParams.max_new_tokens) _ hPM]
        exact envMem_setOrDel_self p _ ("NAI_TOP_P", ModelParams.top_p)
      · exact envMem_setOrDel_self p _ ("NAI_MAX_TOKENS", ModelParams.max_new_tokens)
  · intro h
    unfold set_model_params
    rw [h]

/-- C1 counterexample to the claim as stated: for a model name that does
not appear in the catalog, the declared generation-parameter set is empty,
yet a stale `NAI_TEMPERATURE` entry left by a previous call for a different
model survives `set_model_params` — so the set of entries present does not
equal the declared set. -/
theorem set_model_params_stale_for_unknown_model :
    configLookup ([] : Catalog) "my-custom-model" = none ∧
    envMem (set_model_params ([] : Catalog) "my-custom-model"
      [("NAI_TEMPERATURE", "0.7")]) "NAI_TEMPERATURE" = true := by
  exact ⟨rfl, rfl⟩

/-- Witness for `set_model_params_hygiene_of_catalog_model` at a concrete
catalog: `gpt2` declares `temperature` and `top_p` only; starting from an
environment holding a stale `NAI_REP_PENALTY`, exactly `NAI_TEMPERATURE`
and `NAI_TOP_P` are present afterwards. -/
theorem set_model_params_hygiene_witness :
    envMem (set_model_params
        [("gpt2", ⟨some "gpt2", some "11c5a3d", some "handler.py",
          some ⟨some "0.5", none, some "0.9", none⟩⟩)]
        "gpt2" [("NAI_REP_PENALTY", "1.3")]) "NAI_TEMPERATURE" = true ∧
    envMem (set_model_params
        [("gpt2", ⟨some "gpt2", some "11c5a3d", some "handler.py",
          some ⟨some "0.5", none, some "0.9", none⟩⟩)]
        "gpt2" [("NAI_REP_PENALTY", "1.3")]) "NAI_REP_PENALTY" = false ∧
    envMem (set_model_params
        [("gpt2", ⟨some "gpt2", some "11c5a3d", some "handler.py",
          some ⟨some "0.5", none, some "0.9", none⟩⟩)]
        "gpt2" [("NAI_REP_PENALTY", "1.3")]) "NAI_TOP_P" = true ∧
    envMem (set_model_params
        [("gpt2", ⟨some "gpt2", some "11c5a3d", some "handler.py",
          some ⟨some "0.5", none, some "0.9", none⟩⟩)]
        "gpt2" [("NAI_REP_PENALTY", "1.3")]) "NAI_MAX_TOKENS" = false := by
  have h := (set_model_params_hygiene_of_catalog_model
      [("gpt2", ⟨some "gpt2", some "11c5a3d", some "handler.py",
        some ⟨some "0.5", none, some "0.9", none⟩⟩)]
      "gpt2" [("NAI_REP_PENALTY", "1.3")]).1
      ⟨some "gpt2", some "11c5a3d", some "handler.py",
        some ⟨some "0.5", none, some "0.9", none⟩⟩ rfl
  simpa using h

/-! ## C3: archive naming policy -/

/-- C3: `get_mar_name` returns the bare `model_name` when
`is_custom_model` is true, and `model_name ++ "_" ++ (first 7 characters of
repo_version)` when it is false; it is pure (equal inputs give equal ids),
and two revisions sharing the same 7-character prefix map to the same
archive id. -/
theorem get_mar_name_policy (model_name repo_version repo_version' : String) :
    get_mar_name model_name repo_version true = model_name ∧
    get_mar_name model_name repo_version false
      = model_name ++ "_" ++ repo_version.take 7 ∧
    get_mar_name model_name repo_version false
      = get_mar_name model_name repo_version false ∧
    (repo_version.take 7 = repo_version'.take 7 →
      get_mar_name model_name repo_version false
        = get_mar_name model_name repo_version' false) := by
  refine ⟨rfl, rfl, rfl, ?_⟩
  intro h
  simp [get_mar_name, MAR_NAME_LEN, h]

/-- Witness for `get_mar_name_policy` at concrete inputs: two 40-character
revisions sharing the 7-character prefix `11c5a3d` yield the same MAR
name. -/
theorem get_mar_name_policy_witness :
    get_mar_name "gpt2" "11c5a3d5811f50298f278a704980280950aedb10" false
      = get_mar_name "gpt2" "11c5a3dffffffffffffffffffffffffffffffff" false ∧
    get_mar_name "gpt2" "11c5a3d5811f50298f278a704980280950aedb10" true = "gpt2" := by
  have h := get_mar_name_policy "gpt2" "11c5a3d5811f50298f278a704980280950aedb10"
    "11c5a3dffffffffffffffffffffffffffffffff"
  exact ⟨h.2.2.2 (by decide), h.1⟩

/-! ## C4: skip-regeneration on existing archive -/

/-- C4: whenever `{mar_name}.mar` already exists in the `mar_output`
store when `check_if_mar_exists` is reached (the path checks having
passed), the pipeline terminates with exit code 1 at that check: no
download, no archiver invocation, no file-system change — the state,
including the pre-existing archive, is returned untouched. -/
theorem run_script_skips_when_mar_exists (model_name mar_name : String)
    (skip_download model_path_empty archiver_ok : Bool) (fs : FS)
    (h : (mar_name ++ ".mar") ∈ fs.outputFiles) :
    run_script model_name mar_name true skip_download model_path_empty archiver_ok fs
      = { exit := some 1, fs := fs, downloaded := false, archiverInvoked := false } := by
  simp [run_script, h]

/-- Witness for `run_script_skips_when_mar_exists`: a store already holding
`gpt2_11c5a3d.mar` makes the run exit 1 with the state unchanged. -/
theorem run_script_skips_when_mar_exists_witness :
    run_script "gpt2" "gpt2_11c5a3d" true false false true
        ⟨["gpt2_11c5a3d.mar"], false, []⟩
      = { exit := some 1, fs := ⟨["gpt2_11c5a3d.mar"], false, []⟩,
          downloaded := false, archiverInvoked := false } :=
  run_script_skips_when_mar_exists "gpt2" "gpt2_11c5a3d" false false true
    ⟨["gpt2_11c5a3d.mar"], false, []⟩ (by decide)

/-! ## C2: staging behaviour on archiver failure -/

/-- C2 (amended): for every staging run in which the external archiver
exits non-zero, no file named `{mar_name}.mar` appears in the output
directory (the store is exactly as before) and the run terminates with
`sys.exit(1)`; the staging (temporary) directory, however, still exists
afterwards — the failure path of `generate_mars` exits without deleting
it (`rm_dir(tmp_dir)` runs only on the success path of `create_mar`). -/
theorem run_script_archiver_failure (model_name mar_name : String)
    (skip_download model_path_empty : Bool) (fs : FS)
    (hmar : (mar_name ++ ".mar") ∉ fs.outputFiles)
    (hreach : model_path_empty = !skip_download) :
    (run_script model_name mar_name true skip_download model_path_empty false fs).exit
        = some 1 ∧
    (run_script model_name mar_name true skip_download model_path_empty false
        fs).fs.outputFiles = fs.outputFiles ∧
    (run_script model_name mar_name true skip_download model_path_empty false
        fs).fs.tmpExists = true ∧
    (run_script model_name mar_name true skip_download model_path_empty false
        fs).archiverInvoked = true := by
  subst hreach
  cases skip_download with
  | true => simp [run_script, create_mar, generate_mars_fs, hmar]
  | false => simp [run_script, create_mar, generate_mars_fs, hmar]

/-- C2 counterexample to the claim as stated: a concrete failed run
(empty store, archiver exiting non-zero) terminates with exit code 1 and
produces no `{mar_name}.mar`, but the staging directory *still exists*
afterwards, contradicting "the staging (temporary) directory no longer
exists". -/
theorem run_script_archiver_failure_staging_persists :
    (run_script "gpt2" "gpt2_11c5a3d" true true false false ⟨[], false, []⟩).exit
        = some 1 ∧
    (run_script "gpt2" "gpt2_11c5a3d" true true false false
        ⟨[], false, []⟩).fs.outputFiles = [] ∧
    (run_script "gpt2" "gpt2_11c5a3d" true true false false
        ⟨[], false, []⟩).fs.tmpExists = true :=
  ⟨rfl, rfl, rfl⟩

/-- Witness for `run_script_archiver_failure` on the download path: the
store keeps only its unrelated file, the run exits 1, and the staging
directory is left behind. -/
theorem run_script_archiver_failure_witness :
    (run_script "mistral" "mistral_f1a2b3c" true false true false
        ⟨["other.mar"], false, []⟩).exit = some 1 ∧
    (run_script "mistral" "mistral_f1a2b3c" true false true false
        ⟨["other.mar"], false, []⟩).fs.outputFiles = ["other.mar"] ∧
    (run_script "mistral" "mistral_f1a2b3c" true false true false
        ⟨["other.mar"], false, []⟩).fs.tmpExists = true ∧
    (run_script "mistral" "mistral_f1a2b3c" true false true false
        ⟨["other.mar"], false, []⟩).archiverInvoked = true :=
  run_script_archiver_failure "mistral" "mistral_f1a2b3c" false true
    ⟨["other.mar"], false, []⟩ (by decide) rfl

/-! ## C5: custom model with skip-download -/

/-- C5: for a model name not present in the catalog with
`skip_download` set, `read_config_for_download` exits with code 1 when the
local model directory is empty; otherwise it proceeds, and when no
`repo_version` was supplied the revision is set to the fixed placeholder
`"1.0"` (an explicitly supplied revision is kept). -/
theorem read_config_custom_skip_download (catalog : Catalog) (g : GenInputs)
    (h1 : configLookup catalog g.model_name = none)
    (h2 : g.skip_download = true) :
    (g.folder_empty = true → read_config_for_download catalog g = .error 1) ∧
    (g.folder_empty = false → ∃ r : ResolvedModel,
      read_config_for_download catalog g = .ok r ∧
      r.repo_version = (if g.repo_version = "" then "1.0" else g.repo_version)) := by
  constructor
  · intro h3
    simp [read_config_for_download, h1, h2, h3]
  · intro h3
    refine ⟨⟨true, g.repo_id, if g.repo_version = "" then "1.0" else g.repo_version,
      if g.handler_path = "" then "handler.py" else g.handler_path,
      get_mar_name g.model_name
        (if g.repo_version = "" then "1.0" else g.repo_version) true⟩, ?_, rfl⟩
    simp [read_config_for_download, h1, h2, h3]

/-- Witness for `read_config_custom_skip_download`: with an empty catalog
and `skip_download`, an empty model directory exits 1, and a non-empty one
resolves the unsupplied revision to `"1.0"`. -/
theorem read_config_custom_skip_download_witness :
    read_config_for_download []
        ⟨"my-model", true, "", "", "", none, true, none⟩ = .error 1 ∧
    ∃ r : ResolvedModel,
      read_config_for_download []
          ⟨"my-model", true, "", "", "", none, false, none⟩ = .ok r ∧
      r.repo_version = (if ("" : String) = "" then "1.0" else "") := by
  constructor
  · exact (read_config_custom_skip_download []
      ⟨"my-model", true, "", "", "", none, true, none⟩ rfl rfl).1 rfl
  · exact (read_config_custom_skip_download []
      ⟨"my-model", true, "", "", "", none, false, none⟩ rfl rfl).2 rfl

/-! ## C6: order-independent file-set comparison -/

/-- Helper: `compare_lists` returns `true` exactly when every string has
the same number of occurrences in both lists. -/
theorem compare_lists_iff_count (l1 l2 : List String) :
    compare_lists l1 l2 = true ↔ ∀ s, l1.count s = l2.count s := by
  unfold compare_lists
  rw [List.all_eq_true]
  constructor
  · intro h s
    by_cases hs : s ∈ l1 ++ l2
    · exact beq_iff_eq.mp (h s hs)
    · rw [List.mem_append] at hs
      push_neg at hs
      rw [List.count_eq_zero.mpr hs.1, List.count_eq_zero.mpr hs.2]
  · intro h s _
    exact beq_iff_eq.mpr (h s)

/-- C6: `compare_lists(l1, l2)` returns `True` iff every string occurs
the same number of times in `l1` as in `l2` (multiset equality);
consequently it returns `True` on any permutation of the same list, and
`False` when one list is the other with one occurrence of some element
removed. -/
theorem compare_lists_multiset (l1 l2 : List String) :
    (compare_lists l1 l2 = true ↔ ∀ s, l1.count s = l2.count s) ∧
    (l1.Perm l2 → compare_lists l1 l2 = true) ∧
    (∀ a, a ∈ l1 → compare_lists l1 (l1.erase a) = false) := by
  refine ⟨compare_lists_iff_count l1 l2, ?_, ?_⟩
  · intro hp
    exact (compare_lists_iff_count l1 l2).mpr (List.perm_iff_count.mp hp)
  · intro a ha
    rw [Bool.eq_false_iff]
    intro hc
    have hcount := (compare_lists_iff_count l1 (l1.erase a)).mp hc a
    rw [List.count_erase_self] at hcount
    have hpos : 0 < l1.count a := List.count_pos_iff.mpr ha
    omega

/-- Witness for `compare_lists_multiset`: a shuffled copy compares equal,
and dropping one occurrence of `"b"` makes it compare different. -/
theorem compare_lists_multiset_witness :
    compare_lists ["a", "b", "a"] ["b", "a", "a"] = true ∧
    compare_lists ["a", "b", "a"] (["a", "b", "a"].erase "b") = false := by
  exact ⟨(compare_lists_multiset ["a", "b", "a"] ["b", "a", "a"]).2.1 (by decide),
    (compare_lists_multiset ["a", "b", "a"] ["b", "a", "a"]).2.2 "b" (by decide)⟩

/-! ## C7: health check is a single query, not a polling loop -/

/-- C7 (amended): `run_health_check` performs a *single* query of the
worker-readiness endpoint at call time; it returns success iff every worker
reported in that one response has status `"READY"`, and returns failure
immediately otherwise — its verdict depends only on the response at the
call instant (there is no fixed-interval retry loop and no
`HealthCheckTimeout`; the `timeout` parameter bounds only the single HTTP
request). -/
theorem run_health_check_single_query (trace trace' : Nat → List Worker) :
    (run_health_check_trace trace = true ↔ ∀ w ∈ trace 0, w.status = "READY") ∧
    (trace' 0 = trace 0 → run_health_check_trace trace' = run_health_check_trace trace) := by
  constructor
  · unfold run_health_check_trace run_health_check
    rw [List.all_eq_true]
    constructor
    · intro h w hw
      exact beq_iff_eq.mp (h w hw)
    · intro h w hw
      exact beq_iff_eq.mpr (h w hw)
  · intro h
    unfold run_health_check_trace
    rw [h]

/-- C7 counterexample to the claim as stated: an endpoint whose single
worker is still loading at instant 0 but ready from instant 1 on.  A
fixed-interval poll with a 120-second budget (the claimed behaviour) would
succeed, yet the code reports failure immediately — it does fail before the
timeout while workers are still becoming ready. -/
theorem run_health_check_no_polling :
    health_check_polling_spec
        (fun t => if t = 0 then [⟨"LOADING"⟩] else [⟨"READY"⟩]) 120 1 = true ∧
    run_health_check_trace
        (fun t => if t = 0 then [⟨"LOADING"⟩] else [⟨"READY"⟩]) = false := by
  constructor
  · unfold health_check_polling_spec
    rw [List.any_eq_true]
    exact ⟨1, by simp, rfl⟩
  · rfl

/-- Witness for `run_health_check_single_query`: a trace that is all-ready
at instant 0 succeeds, and only instant 0 matters. -/
theorem run_health_check_single_query_witness :
    run_health_check_trace (fun _ => [⟨"READY"⟩]) = true ∧
    run_health_check_trace (fun t => if t = 0 then [⟨"READY"⟩] else [⟨"UNLOADING"⟩])
      = run_health_check_trace (fun _ => [⟨"READY"⟩]) := by
  have h := run_health_check_single_query (fun _ => ([⟨"READY"⟩] : List Worker))
    (fun t => if t = 0 then [⟨"READY"⟩] else [⟨"UNLOADING"⟩])
  exact ⟨h.1.mpr (by decide), h.2 rfl⟩

/-! ## C8: archiver command assembly -/

/-- C8: for every argument set whose five fields are non-empty,
`model_archiver_command_builder` returns exactly
`torch-model-archiver --model-name <model_name> --version <version>
--handler <handler> --extra-files "<extra_files>" --export-path
<export_path> --force` (the force flag always appended); and the arguments
`generate_mars` assembles carry the logical model name — never the
revision-suffixed archive id produced by `get_mar_name` for catalog
models. -/
theorem model_archiver_command_exact (gm : GenModelInfo)
    (extra_files export_path : String)
    (h1 : gm.model_name ≠ "") (h2 : gm.repo_version ≠ "")
    (h3 : gm.handler_path ≠ "") (h4 : extra_files ≠ "") (h5 : export_path ≠ "") :
    model_archiver_command_builder (generate_mars_args gm extra_files export_path)
      = "torch-model-archiver" ++ " --model-name " ++ gm.model_name
        ++ " --version " ++ gm.repo_version ++ " --handler " ++ gm.handler_path
        ++ " --extra-files \"" ++ extra_files ++ "\"" ++ " --export-path "
        ++ export_path ++ " --force" ∧
    (generate_mars_args gm extra_files export_path).model_name = gm.model_name ∧
    ∀ rv : String, (generate_mars_args gm extra_files export_path).model_name
        ≠ get_mar_name gm.model_name rv false := by
  refine ⟨?_, rfl, ?_⟩
  · simp [model_archiver_command_builder, generate_mars_args, h1, h2, h3, h4, h5]
  · intro rv h
    simp only [generate_mars_args, get_mar_name, Bool.false_eq_true, if_false] at h
    have hlen := congrArg String.length h
    rw [String.length_append, String.length_append] at hlen
    have : ("_" : String).length = 1 := rfl
    omega

set_option maxRecDepth 8192 in
/-- Witness for `model_archiver_command_exact`: concrete arguments produce
exactly the expected command line, and the logical name `gpt2` differs from
the suffixed archive id. -/
theorem model_archiver_command_exact_witness :
    model_archiver_command_builder (generate_mars_args
        ⟨"gpt2", "11c5a3d5811f50298f278a704980280950aedb10", "handler.py"⟩
        "model/config.json,model/pytorch_model.bin" "store/tmp_gpt2_11c5a3d_ab1cd")
      = "torch-model-archiver --model-name gpt2 --version 11c5a3d5811f50298f278a704980280950aedb10 --handler handler.py --extra-files \"model/config.json,model/pytorch_model.bin\" --export-path store/tmp_gpt2_11c5a3d_ab1cd --force" ∧
    ("gpt2" : String) ≠ get_mar_name "gpt2" "11c5a3d5811f50298f278a704980280950aedb10" false := by
  have h := model_archiver_command_exact
    ⟨"gpt2", "11c5a3d5811f50298f278a704980280950aedb10", "handler.py"⟩
    "model/config.json,model/pytorch_model.bin" "store/tmp_gpt2_11c5a3d_ab1cd"
    (by decide) (by decide) (by decide) (by decide) (by decide)
  exact ⟨h.1.trans (by decide), h.2.2 "11c5a3d5811f50298f278a704980280950aedb10"⟩

/-! ## C9: cleanup runs on every exit path of `torchserve_run` -/

/-- C9: on every execution of `torchserve_run` the final cleanup
(`cleanup(gen_folder, stop_server, ts_cleanup)`: server stop and log-folder
removal when `stop_server` is set, plus gen-folder removal when
`ts_cleanup` is also set) runs after the `try` body on *every* exit path —
the trace always ends with the cleanup actions and the body's outcome
(normal return, exception, or `SystemExit` from `sys.exit`) propagates
through the `finally` block unchanged.  The quantification over `body`
covers all three outcomes, `PyOutcome.sysExit` included. -/
theorem torchserve_run_cleanup_always (body : List TSAction × PyOutcome)
    (stop_server ts_cleanup : Bool) :
    (torchserve_run body stop_server ts_cleanup).1
        = cleanup true false ++ body.1 ++ cleanup stop_server ts_cleanup ∧
    (torchserve_run body stop_server ts_cleanup).2 = body.2 ∧
    cleanup stop_server ts_cleanup <:+ (torchserve_run body stop_server ts_cleanup).1 :=
  ⟨List.append_assoc _ _ _ ▸ rfl, rfl, ⟨cleanup true false ++ body.1, rfl⟩⟩

/-! ## C10: extension filtering, the empty ignore-list, and `$` before a
trailing newline -/

/-- C10 (amended): with an empty ignore-list the joined regex is the empty
pattern, which matches every filename, so `filter_files_by_extension`
removes *every* file and returns `[]`; with a non-empty extension list a
filename is removed exactly when it ends with one of the listed suffixes
*or with a listed suffix followed by a single trailing newline* (Python's
`$` without `re.MULTILINE` also matches just before a newline at the end
of the string), i.e. kept exactly when neither holds for any listed
suffix. -/
theorem filter_files_by_extension_empty_removes_all (filenames : List String) :
    filter_files_by_extension filenames [] = [] ∧
    (∀ extensions_to_remove : List String, extensions_to_remove ≠ [] →
      ∀ f, f ∈ filter_files_by_extension filenames extensions_to_remove
        ↔ f ∈ filenames ∧ ∀ s ∈ extensions_to_remove,
            str_ends_with s f = false ∧ str_ends_with (s ++ "\n") f = false) := by
  constructor
  · simp [filter_files_by_extension, search_ignore_pattern]
  · intro exts hne f
    cases exts with
    | nil => exact absurd rfl hne
    | cons e rest =>
      simp [filter_files_by_extension, search_ignore_pattern, List.mem_filter,
        List.any_eq_true]

/-- C10 counterexample to the claim as stated: the claim says that with a
non-empty extension list *exactly the filenames ending with one of the
listed suffixes* are removed, yet the code also removes `"notes.txt\n"`
for the list `[".txt"]` — `re.search` of `\.txt$` matches just before the
trailing newline — even though that filename does not end with `".txt"`. -/
theorem filter_files_by_extension_trailing_newline :
    filter_files_by_extension ["notes.txt\n"] [".txt"] = [] ∧
    str_ends_with ".txt" "notes.txt\n" = false :=
  ⟨rfl, rfl⟩

/-- Witness for `filter_files_by_extension_empty_removes_all`: the empty
ignore-list removes the only file, and with a non-empty ignore-list
`a.txt` survives because it ends neither with a listed suffix nor with a
listed suffix plus a trailing newline. -/
theorem filter_files_by_extension_witness :
    filter_files_by_extension ["a.txt"] [] = [] ∧
    ("a.txt" ∈ filter_files_by_extension ["a.txt", "b.safetensors"] [".safetensors"]
      ↔ "a.txt" ∈ ["a.txt", "b.safetensors"]
        ∧ ∀ s ∈ [".safetensors"], str_ends_with s "a.txt" = false
            ∧ str_ends_with (s ++ "\n") "a.txt" = false) :=
  ⟨(filter_files_by_extension_empty_removes_all ["a.txt"]).1,
    (filter_files_by_extension_empty_removes_all ["a.txt", "b.safetensors"]).2
      [".safetensors"] (by decide) "a.txt"⟩
